import Mathlib

/-!
Verification of the KiBot `pcb_print` and `blender_export` output plugins
(`kibot/out_pcb_print.py`, `kibot/out_blender_export.py`).

The Python code is shallowly embedded: PDF documents become lists of pages,
a page's content stream becomes a list of operations, the file system of a
directory becomes an association list from file names to documents, and
fallible functions return `Except String`.  Floating point colors are
modelled with exact rationals.  External engines (pcbnew plotting, Blender,
`load_color_theme`, filename expansion) are parameters of the embedding.
-/

set_option autoImplicit false

namespace KiBot

/-- An RGB color with components in [0,1], as the Python tuples of floats. -/
abbrev Color := ℚ × ℚ × ℚ

/-- One object in a PDF content stream operand list. -/
inductive PdfObj where
  | num (q : ℚ)
  | name (s : String)
  | str (s : String)
  deriving DecidableEq, Repr

/-- One operation of a PDF content stream: operand list plus operator name. -/
structure PdfOp where
  operands : List PdfObj
  op : String
  deriving DecidableEq, Repr

/-- A PDF page, identified with its content stream operations. -/
abbrev Page := List PdfOp

/-- A PDF document: its list of pages. -/
abbrev PdfFile := List Page

/-- The contents of a directory: file name to PDF document, latest write first. -/
abbrev FS := List (String × PdfFile)

/-- Look a file up in a directory (the most recent write wins). -/
def fsRead (fs : FS) (name : String) : Option PdfFile :=
  match fs with
  | [] => none
  | (n, d) :: rest => if n = name then some d else fsRead rest name

/-- Write a file into a directory, shadowing any previous version. -/
def fsWrite (fs : FS) (name : String) (doc : PdfFile) : FS :=
  (name, doc) :: fs

/-- `hex_to_rgb` helper: value of one hexadecimal digit, as Python `int(_, 16)`. -/
def hexDigit (c : Char) : Option ℕ :=
  if '0' ≤ c ∧ c ≤ '9' then some (c.toNat - '0'.toNat)
  else if 'a' ≤ c ∧ c ≤ 'f' then some (c.toNat - 'a'.toNat + 10)
  else if 'A' ≤ c ∧ c ≤ 'F' then some (c.toNat - 'A'.toNat + 10)
  else none

/-- Value of a two-digit hexadecimal string `int(value[i:i+2], 16)`. -/
def hexByte (c1 c2 : Char) : Option ℕ := do
  let h ← hexDigit c1
  let l ← hexDigit c2
  pure (16 * h + l)

/-- Python `str.lstrip('#')`: drop every leading `#`. -/
def lstripHash (cs : List Char) : List Char :=
  match cs with
  | '#' :: rest => lstripHash rest
  | _ => cs

/-- `hex_to_rgb`: `(red, green, blue)` floats in 0-1 plus alpha for `#rrggbb`
or `#rrggbbaa`; `none` when a referenced digit is not hexadecimal
(Python `int` raises `ValueError` there). -/
def hex_to_rgb (value : String) : Option (Color × ℚ) :=
  match lstripHash value.toList with
  | c0 :: c1 :: c2 :: c3 :: c4 :: c5 :: rest => do
    let r ← hexByte c0 c1
    let g ← hexByte c2 c3
    let b ← hexByte c4 c5
    let alpha ← match rest with
      | [a0, a1] => do
        let a ← hexByte a0 a1
        pure ((a : ℚ) / 255)
      | [] => pure (1 : ℚ)
      | _ => none
    pure (((r : ℚ) / 255, (g : ℚ) / 255, (b : ℚ) / 255), alpha)
  | _ => none

/-- `to_gray`: the gray triple whose components are the average of the three. -/
def to_gray (color : Color) : Color :=
  let avg := (color.1 + color.2.1 + color.2.2) / 3
  (avg, avg, avg)

/-- The operand list `[0, 0, 0]` that the colorizer looks for. -/
def blackOperands : List PdfObj := [.num 0, .num 0, .num 0]

/-- Decides whether a content-stream operation sets fill (`rg`) or stroke
(`RG`) color to black, the condition tested inside `colorize_pdf`. -/
def isBlackColorOp (o : PdfOp) : Bool :=
  (o.op = "rg" ∨ o.op = "RG") ∧ o.operands = blackOperands

/-- The inner loop of `colorize_pdf` on one content stream: replace the
operand list of every black `rg`/`RG` operation by the new color. -/
def colorizeOps (color : Color) (ops : List PdfOp) : List PdfOp :=
  ops.map fun o =>
    if isBlackColorOp o then
      { o with operands := [.num color.1, .num color.2.1, .num color.2.2] }
    else o

/-- `colorize_pdf`: read `in_file` from `folder`, rewrite every page's content
stream with `colorizeOps`, and write the result as `out_file`.  A missing or
unreadable input yields the `KiPlotConfigurationError` of the Python code. -/
def colorize_pdf (folder : FS) (in_file out_file : String) (color : Color) :
    Except String FS :=
  match fsRead folder in_file with
  | none => .error ("Error reading " ++ in_file)
  | some doc => .ok (fsWrite folder out_file (doc.map (colorizeOps color)))

/-- `colorize_layer`: when the layer color is not `#000000`, decode it, turn
it to gray when the page is monochrome, colorize the layer's PDF and append
the colorized name to the file list; otherwise just append the plain name. -/
def colorize_layer (pcb_basename : String) (suffix : String) (color : String)
    (monochrome : Bool) (filelist : List String) (temp_dir : FS) :
    Except String (List String × FS) :=
  let in_file := pcb_basename ++ "-" ++ suffix ++ ".pdf"
  if color ≠ "#000000" then
    let out_file := pcb_basename ++ "-" ++ suffix ++ "-colored.pdf"
    match hex_to_rgb color with
    | none => .error ("invalid color " ++ color)
    | some (rgb, _alpha) =>
      let c := if monochrome then to_gray rgb else rgb
      match colorize_pdf temp_dir in_file out_file c with
      | .error e => .error e
      | .ok fs => .ok (filelist ++ [out_file], fs)
  else
    .ok (filelist ++ [in_file], temp_dir)

/-- PyPDF2 `page.mergePage`: overlay another page, appending its content
stream operations after the current ones. -/
def mergePage (base other : Page) : Page := base ++ other

/-- `PdfFileReader(f).getPage(0)`: the first page of a stored document. -/
def readFirstPage (fs : FS) (filename : String) : Except String Page :=
  match fsRead fs filename with
  | none => .error ("Error reading " ++ filename)
  | some [] => .error ("Error reading " ++ filename)
  | some (p :: _) => .ok p

/-- The accumulation loop of `merge_pdf`: `acc = none` is the state before
the first iteration (`i == 0`, `merged_page` unassigned); each readable file
contributes its first page, merged onto the accumulator. -/
def mergeCollect (fs : FS) (files : List String) (acc : Option Page) :
    Except String (Option Page) :=
  match files with
  | [] => .ok acc
  | f :: rest =>
    match readFirstPage fs f with
    | .error e => .error e
    | .ok pg =>
      match acc with
      | none => mergeCollect fs rest (some pg)
      | some m => mergeCollect fs rest (some (mergePage m pg))

/-- `merge_pdf`: merge the first pages of all input files into one page and
write a one-page document.  When the input list is empty, `merged_page` was
never assigned and Python raises `NameError` at `output.addPage(merged_page)`,
before any output is produced. -/
def merge_pdf (input_folder : FS) (input_files : List String)
    (output_folder : FS) (output_file : String) : Except String FS :=
  match mergeCollect input_folder input_files none with
  | .error e => .error e
  | .ok none => .error "NameError: merged_page referenced before assignment"
  | .ok (some pg) => .ok (fsWrite output_folder output_file [pg])

/-- `page.compressContentStreams()`: re-encodes the stream bytes with Flate
compression; at the level of content-stream operations it changes nothing. -/
def compressContentStreams (p : Page) : Page := p

/-- The collection loop of `create_pdf_from_pages`: the first page of each
input file, in list order. -/
def collectPages (fs : FS) (files : List String) : Except String (List Page) :=
  match files with
  | [] => .ok []
  | f :: rest =>
    match readFirstPage fs f with
    | .error e => .error e
    | .ok pg =>
      match collectPages fs rest with
      | .error e => .error e
      | .ok ps => .ok (compressContentStreams pg :: ps)

/-- `create_pdf_from_pages`: write a document holding the first page of every
input file, in list order. -/
def create_pdf_from_pages (input_folder : FS) (input_files : List String)
    (output : FS) (output_fn : String) : Except String FS :=
  match collectPages input_folder input_files with
  | .error e => .error e
  | .ok ps => .ok (fsWrite output output_fn ps)

/-! ## The `generate_output` pipeline of `PCB_PrintOptions` -/

/-- Configuration of one layer of a page (`LayerOptions` after `config`). -/
structure LayerCfg where
  suffix : String
  color : String
  plot_footprint_refs : Bool
  plot_footprint_values : Bool
  force_plot_invisible_refs_vals : Bool
  deriving DecidableEq, Repr

/-- Configuration of one page (`PagesOptions` after `config`). -/
structure PageCfg where
  mirror : Bool
  monochrome : Bool
  scaling : ℚ
  title : String
  sheet : String
  sheet_reference_color : String
  line_width : ℚ
  negative_plot : Bool
  exclude_pads_from_silkscreen : Bool
  tent_vias : Bool
  layers : List LayerCfg
  deriving DecidableEq, Repr

/-- The part of `PCB_PrintOptions` that `generate_output` reads. -/
structure PcbPrintCfg where
  pcb_basename : String
  plot_sheet_reference : Bool
  theme_pcb_frame : String
  pages : List PageCfg
  deriving DecidableEq, Repr

/-- Observable steps of the `generate_output` pipeline. -/
inductive Event where
  | plotLayer (page : ℕ) (suffix : String)
  | plotFrame (page : ℕ)
  | colorizeStep (page : ℕ) (suffix : String) (recolored : Bool)
  | mergeLayers (page : ℕ) (assembly : String)
  | stackPages (files : List String) (out : String)
  | removeTempDir
  deriving DecidableEq, Repr

/-- The external plotting engine: the PDF that `pc.PlotLayer()` writes for a
given page index and plot-file suffix.  KiBot treats it as a black box. -/
abbrev PlotEngine := ℕ → String → PdfFile

/-- Step 1 of a page: plot every layer to `basename-suffix.pdf` in the
temporary directory. -/
def plotPageLayers (plot : PlotEngine) (basename : String) (n : ℕ)
    (layers : List LayerCfg) (temp : FS) : FS × List Event :=
  match layers with
  | [] => (temp, [])
  | la :: rest =>
    let temp1 := fsWrite temp (basename ++ "-" ++ la.suffix ++ ".pdf") (plot n la.suffix)
    let (temp2, evs) := plotPageLayers plot basename n rest temp1
    (temp2, .plotLayer n la.suffix :: evs)

/-- Step 3 of a page: run `colorize_layer` for every layer, threading the
file list and the temporary directory. -/
def colorizePageLayers (basename : String) (n : ℕ) (layers : List LayerCfg)
    (monochrome : Bool) (filelist : List String) (temp : FS) :
    Except String (List String × FS × List Event) :=
  match layers with
  | [] => .ok (filelist, temp, [])
  | la :: rest =>
    match colorize_layer basename la.suffix la.color monochrome filelist temp with
    | .error e => .error e
    | .ok (fl1, t1) =>
      match colorizePageLayers basename n rest monochrome fl1 t1 with
      | .error e => .error e
      | .ok (fl2, t2, evs) =>
        .ok (fl2, t2, .colorizeStep n la.suffix (decide (la.color ≠ "#000000")) :: evs)

/-- The frame color used in step 4: the page's `sheet_reference_color` when
set, the theme's `pcb_frame` color otherwise. -/
def frameColor (themeFrame : String) (p : PageCfg) : String :=
  if p.sheet_reference_color ≠ "" then p.sheet_reference_color else themeFrame

/-- The name of the per-page assembly PDF produced in step 5. -/
def assemblyFile (basename : String) (n : ℕ) : String :=
  basename ++ "-" ++ toString n ++ ".pdf"

/-- Step 2 of a page: plot the frame to `basename-frame.pdf` when
`plot_sheet_reference` is set. -/
def plotFrameStep (plot : PlotEngine) (basename : String) (sheetRef : Bool)
    (n : ℕ) (temp : FS) : FS × List Event :=
  if sheetRef then
    (fsWrite temp (basename ++ "-frame.pdf") (plot n "frame"), [Event.plotFrame n])
  else (temp, [])

/-- Step 4 of a page: colorize the frame PDF when `plot_sheet_reference` is
set, with the page's frame color. -/
def colorizeFrameStep (basename : String) (sheetRef : Bool)
    (themeFrame : String) (n : ℕ) (p : PageCfg) (fl : List String) (temp : FS) :
    Except String (List String × FS × List Event) :=
  if sheetRef then
    match colorize_layer basename "frame" (frameColor themeFrame p) p.monochrome fl temp with
    | .error e => .error e
    | .ok (fl2, t2) =>
      .ok (fl2, t2, [.colorizeStep n "frame" (decide (frameColor themeFrame p ≠ "#000000"))])
  else .ok (fl, temp, [])

/-- One iteration of the page loop of `generate_output`: plot all layers,
optionally plot the frame, colorize, optionally colorize the frame, and merge
everything into `basename-n.pdf`.  Returns the new temporary directory, the
assembly file name and the emitted events. -/
def processPage (plot : PlotEngine) (basename : String) (sheetRef : Bool)
    (themeFrame : String) (n : ℕ) (p : PageCfg) (temp : FS) :
    Except String (FS × String × List Event) :=
  let pr := plotPageLayers plot basename n p.layers temp
  let fr := plotFrameStep plot basename sheetRef n pr.1
  match colorizePageLayers basename n p.layers p.monochrome [] fr.1 with
  | .error e => .error e
  | .ok (fl1, tempC, evColor) =>
    match colorizeFrameStep basename sheetRef themeFrame n p fl1 tempC with
    | .error e => .error e
    | .ok (fl3, tempD, evFrColor) =>
      match merge_pdf tempD fl3 tempD (assemblyFile basename n) with
      | .error e => .error e
      | .ok tempE =>
        .ok (tempE, assemblyFile basename n,
             pr.2 ++ fr.2 ++ evColor ++ evFrColor ++ [.mergeLayers n (assemblyFile basename n)])

/-- The page loop of `generate_output`, pages numbered from `n` upward. -/
def processPages (plot : PlotEngine) (basename : String) (sheetRef : Bool)
    (themeFrame : String) (n : ℕ) (ps : List PageCfg) (temp : FS) :
    Except String (FS × List String × List Event) :=
  match ps with
  | [] => .ok (temp, [], [])
  | p :: rest =>
    match processPage plot basename sheetRef themeFrame n p temp with
    | .error e => .error e
    | .ok (temp1, assembly, evs1) =>
      match processPages plot basename sheetRef themeFrame (n + 1) rest temp1 with
      | .error e => .error e
      | .ok (temp2, files, evs2) => .ok (temp2, assembly :: files, evs1 ++ evs2)

/-- The state left behind by a `generate_output` run: the temporary directory
(`none` once `rmtree` removed it) and the output directory. -/
structure GenResult where
  temp : Option FS
  outDir : FS
  events : List Event
  deriving DecidableEq, Repr

/-- `PCB_PrintOptions.generate_output`: create a fresh temporary directory,
process every page in order, stack the per-page PDFs into `output` in the
output directory, and remove the temporary directory. -/
def generate_output (plot : PlotEngine) (cfg : PcbPrintCfg) (outDir : FS)
    (output : String) : Except String GenResult :=
  match processPages plot cfg.pcb_basename cfg.plot_sheet_reference
      cfg.theme_pcb_frame 0 cfg.pages [] with
  | .error e => .error e
  | .ok (temp1, pageFiles, evs) =>
    match create_pdf_from_pages temp1 pageFiles outDir output with
    | .error e => .error e
    | .ok outDir1 =>
      .ok { temp := none, outDir := outDir1,
            events := evs ++ [.stackPages pageFiles output, .removeTempDir] }

/-! ## `PCB_PrintOptions.config` validation -/

/-- A color theme as loaded by `load_color_theme`. -/
structure ColorTheme where
  layer_id2color : List (ℤ × String)
  pcb_frame : String
  deriving DecidableEq, Repr

/-- A layer entry as it stands before `PCB_PrintOptions.config` resolves its
color (`color = ""` when the user gave none). -/
structure RawLayer where
  id : ℤ
  suffix : String
  color : String
  deriving DecidableEq, Repr

/-- A page entry before validation: `layers = none` models the `layers` key
being absent (the attribute still holds the class, `isinstance(_, type)`). -/
structure RawPage where
  layers : Option (List RawLayer)
  deriving DecidableEq, Repr

/-- `PCB_PrintOptions` input before validation: `pages = none` models the
missing `pages` list; `drill_marks` is the user value (default `"full"`). -/
structure RawPcbPrint where
  pages : Option (List RawPage)
  color_theme : String
  drill_marks : String
  deriving DecidableEq, Repr

/-- `PCB_PrintOptions._drill_marks_map`. -/
def drill_marks_map (s : String) : Option ℕ :=
  if s = "none" then some 0
  else if s = "small" then some 1
  else if s = "full" then some 2
  else none

/-- `PagesOptions.config` for every page (run during `super().config`):
raise when a page's `layers` list is missing. -/
def checkPagesLayers (pages : List RawPage) : Except String Unit :=
  match pages with
  | [] => .ok ()
  | p :: rest =>
    match p.layers with
    | none => .error "Missing layers list"
    | some _ => checkPagesLayers rest

/-- Color assignment of `PCB_PrintOptions.config`: a layer without a color
gets the theme color of its id, or `#000000` when the theme has none. -/
def resolveLayerColor (theme : ColorTheme) (la : RawLayer) : RawLayer :=
  if la.color = "" then
    { la with color := ((theme.layer_id2color.lookup la.id).getD "#000000") }
  else la

/-- The validated configuration produced by `PCB_PrintOptions.config`. -/
structure PcbPrintResolved where
  pages : List (List RawLayer)
  drill_marks : ℕ
  pcb_frame : String
  deriving DecidableEq, Repr

/-- `PCB_PrintOptions.config` (together with the `drill_marks` setter and
`PagesOptions.config`): validate the drill-mark name, the presence of the
`pages` and per-page `layers` lists and the color theme, then resolve layer
colors and map `drill_marks` to its numeric value.  `themes` stands for
`load_color_theme`.  Validation done outside these two files (color syntax,
layer-name resolution, unknown keys) is not modelled. -/
def pcb_print_config (themes : String → Option ColorTheme) (raw : RawPcbPrint) :
    Except String PcbPrintResolved :=
  match drill_marks_map raw.drill_marks with
  | none => .error ("Unknown drill mark type: " ++ raw.drill_marks)
  | some dm =>
    match raw.pages with
    | none => .error "Missing pages list"
    | some pages =>
      match checkPagesLayers pages with
      | .error e => .error e
      | .ok _ =>
        match themes raw.color_theme with
        | none => .error ("Unable to load " ++ raw.color_theme ++ " color theme")
        | some theme =>
          .ok { pages := pages.map fun p => (p.layers.getD []).map (resolveLayerColor theme),
                drill_marks := dm,
                pcb_frame := theme.pcb_frame }

/-! ## The `blender_export` output -/

/-- `PCB2BlenderOptions`: how the PCB3D file is imported. -/
structure PCB2BlenderCfg where
  components : Bool
  cut_boards : Bool
  texture_dpi : ℚ
  center : Bool
  enhance_materials : Bool
  merge_materials : Bool
  solder_joints : String
  stack_boards : Bool
  deriving DecidableEq, Repr

/-- The default `PCB2BlenderOptions` values. -/
def defaultPcbImport : PCB2BlenderCfg :=
  { components := true, cut_boards := true, texture_dpi := 1016,
    center := true, enhance_materials := true, merge_materials := true,
    solder_joints := "SMART", stack_boards := true }

/-- `BlenderOutputOptions`: one output of the run. -/
structure BlenderOutputCfg where
  type : String
  output : String
  deriving DecidableEq, Repr

/-- `BlenderLightOptions` after `config`: positions already solved. -/
structure LightCfg where
  name : String
  pos_x : ℚ
  pos_y : ℚ
  pos_z : ℚ
  deriving DecidableEq, Repr

/-- `BlenderRenderOptions`. -/
structure RenderCfg where
  samples : ℤ
  resolution_x : ℤ
  resolution_y : ℤ
  transparent_background : Bool
  background1 : String
  background2 : String
  deriving DecidableEq, Repr

/-- The scene description serialized to the JSON file. -/
structure Scene where
  lights : Option (List (String × ℚ × ℚ × ℚ))
  camera : Option (String × ℚ × ℚ × ℚ)
  render : RenderCfg
  rot_x : Option ℚ
  rot_y : Option ℚ
  rot_z : Option ℚ
  view : Option String
  deriving DecidableEq, Repr

/-- `Blender_ExportOptions` after `config`, the part `run` reads. -/
structure BlenderCfg where
  pcb3d : String
  pcb_import : PCB2BlenderCfg
  outputs : List BlenderOutputCfg
  light : List LightCfg
  camera : Option LightCfg
  render_options : RenderCfg
  rotate_x : ℚ
  rotate_y : ℚ
  rotate_z : ℚ
  view : String
  deriving DecidableEq, Repr

/-- Environment of a `run`: the Blender binary, the pcb3d source output's
first target, whether it already ran, whether the PCB3D file exists at the
`os.path.isfile` check, the temporary JSON name and the script path. -/
structure BlenderEnv where
  blender : String
  pcb3d_file : String
  pcb3d_done : Bool
  pcb3d_file_exists : Bool
  scene_json : String
  script : String
  deriving DecidableEq, Repr

/-- Observable actions of `Blender_ExportOptions.run`. -/
inductive BEvent where
  | ranOutput (name : String)
  | wroteScene (s : Scene)
  | ranCommand (cmd : List String)
  deriving DecidableEq, Repr

/-- `get_output_filename`: pick the extension from the output type and expand
the name pattern (`expand` stands for `expand_filename`). -/
def get_output_filename (expand : String → String → String)
    (o : BlenderOutputCfg) : String :=
  let ext := if o.type = "render" then "png"
             else if o.type = "blender" then "blend"
             else o.type
  expand ext o.output

/-- The scene dictionary built inside `run`, key by key as in the code. -/
def mkScene (cfg : BlenderCfg) : Scene :=
  let lights := if cfg.light ≠ [] then
      some (cfg.light.map fun l => (l.name, l.pos_x, l.pos_y, l.pos_z))
    else none
  let camera := cfg.camera.map fun c => (c.name, c.pos_x, c.pos_y, c.pos_z)
  { lights := lights
    camera := camera
    render := cfg.render_options
    rot_x := if cfg.rotate_x ≠ 0 then some (-cfg.rotate_x) else none
    rot_y := if cfg.rotate_y ≠ 0 then some (-cfg.rotate_y) else none
    rot_z := if cfg.rotate_z ≠ 0 then some (-cfg.rotate_z) else none
    view := if cfg.view ≠ "" then some cfg.view else none }

/-- The command line built inside `run`, appended step by step as in the
code. -/
def mkCommand (env : BlenderEnv) (expand : String → String → String)
    (cfg : BlenderCfg) : List String :=
  let cmd := [env.blender, "-b", "--factory-startup", "-P", env.script, "--"]
  let pi := cfg.pcb_import
  let cmd := if ¬pi.components then cmd ++ ["--no_components"] else cmd
  let cmd := if ¬pi.cut_boards then cmd ++ ["--dont_cut_boards"] else cmd
  let cmd := if pi.texture_dpi ≠ 1016 then
      cmd ++ ["--texture_dpi", toString pi.texture_dpi] else cmd
  let cmd := if ¬pi.center then cmd ++ ["--dont_center"] else cmd
  let cmd := if ¬pi.enhance_materials then cmd ++ ["--dont_enhance_materials"] else cmd
  let cmd := if ¬pi.merge_materials then cmd ++ ["--dont_merge_materials"] else cmd
  let cmd := if pi.solder_joints ≠ "SMART" then
      cmd ++ ["--solder_joints", pi.solder_joints] else cmd
  let cmd := if ¬pi.stack_boards then cmd ++ ["--dont_stack_boards"] else cmd
  let cmd := cmd ++ ["--format"]
  let cmd := cmd ++ cfg.outputs.map (·.type)
  let cmd := cmd ++ ["--output"]
  let cmd := cmd ++ cfg.outputs.map (get_output_filename expand)
  let cmd := cmd ++ ["--scene", env.scene_json]
  cmd ++ [env.pcb3d_file]

/-- `Blender_ExportOptions.run`: run the pcb3d source output when it has not
run yet, abort with `Missing <file>` when the PCB3D file is still absent,
otherwise write the scene JSON and invoke Blender.  Returns the trace of
performed actions plus the command line on success. -/
def blender_run (env : BlenderEnv) (expand : String → String → String)
    (cfg : BlenderCfg) : List BEvent × Except String (List String) :=
  let evs : List BEvent := if ¬env.pcb3d_done then [.ranOutput cfg.pcb3d] else []
  if ¬env.pcb3d_file_exists then
    (evs, .error ("Missing " ++ env.pcb3d_file))
  else
    let scene := mkScene cfg
    let cmd := mkCommand env expand cfg
    (evs ++ [.wroteScene scene, .ranCommand cmd], .ok cmd)

/-! ## `Blender_ExportOptions.config` light handling -/

/-- The suffix search of the light-name check: the id the `while` loop ends
with, the smallest `id ≥ start` such that `name_id` is not taken.  The search
is bounded by `seen.length + 1` candidates, which pigeonhole makes enough. -/
def findFreeId (name : String) (seen : List String) (start : ℕ) : ℕ :=
  match (List.range (seen.length + 1)).find?
      (fun k => ¬(name ++ "_" ++ toString (start + k)) ∈ seen) with
  | some k => start + k
  | none => start + seen.length + 1

/-- The body of the `# Check light names` loop of
`Blender_ExportOptions.config`, as written: an empty name becomes
`kibot_light`, a name found in `light_names` gets a numeric suffix — but the
code never inserts any name into `light_names`, so the accumulator stays
empty and the collision branch is dead. -/
def checkLightNamesGo (light_names : List String) :
    List LightCfg → List LightCfg
  | [] => []
  | li :: rest =>
    let name := if li.name ≠ "" then li.name else "kibot_light"
    let name := if name ∈ light_names then
        name ++ "_" ++ toString (findFreeId name light_names 2)
      else name
    { li with name := name } :: checkLightNamesGo light_names rest

/-- The light-name pass of `Blender_ExportOptions.config`, starting from the
empty `light_names = set()`. -/
def check_light_names (lights : List LightCfg) : List LightCfg :=
  checkLightNamesGo [] lights

/-- The light-list part of `Blender_ExportOptions.config`: no configured
light yields the default light (when `add_default_light`) or none, then the
name check runs.  `size` is `max(width, height)` of the board. -/
def config_lights (add_default_light : Bool) (size : ℚ)
    (light : Option (List LightCfg)) : List LightCfg :=
  let lights := match light with
    | none =>
      if add_default_light then
        [{ name := "kibot_light", pos_x := -size * (333 / 100),
           pos_y := size * (333 / 100), pos_z := size * 5 }]
      else []
    | some ls => ls
  check_light_names lights

/-! ## Theorems -/

/-- The branch test of `colorizeOps` unfolded to a proposition. -/
theorem isBlackColorOp_iff (o : PdfOp) :
    isBlackColorOp o = true ↔
      (o.op = "rg" ∨ o.op = "RG") ∧ o.operands = [.num 0, .num 0, .num 0] := by
  simp [isBlackColorOp, blackOperands]

/-- C1: for every page of the input PDF, `colorize_pdf` scans the page's
content-stream operations and replaces the operand list of every black
fill/stroke color operator (`rg`/`RG` with operands exactly `[0, 0, 0]`) by
the three components of the configured color, leaves every other operation
unchanged, and writes the resulting pages to the output file. -/
theorem colorize_pdf_replaces_black_color_ops
    (folder : FS) (in_file out_file : String) (color : Color) (doc : PdfFile)
    (h : fsRead folder in_file = some doc) :
    ∃ doc' : PdfFile,
      colorize_pdf folder in_file out_file color = .ok (fsWrite folder out_file doc') ∧
      ∀ i : ℕ, doc'.get? i = (doc.get? i).map fun page =>
        page.map fun o =>
          if (o.op = "rg" ∨ o.op = "RG") ∧ o.operands = [.num 0, .num 0, .num 0] then
            { o with operands := [.num color.1, .num color.2.1, .num color.2.2] }
          else o := by
  refine ⟨doc.map (colorizeOps color), by simp [colorize_pdf, h], fun i => ?_⟩
  rw [List.get?_map]
  rcases doc.get? i with _ | page
  · rfl
  · refine congrArg some ?_
    unfold colorizeOps
    refine List.map_congr_left fun o _ => ?_
    by_cases hb : (o.op = "rg" ∨ o.op = "RG") ∧ o.operands = [.num 0, .num 0, .num 0]
    · rw [if_pos ((isBlackColorOp_iff o).mpr hb), if_pos hb]
    · rw [if_neg (fun hc => hb ((isBlackColorOp_iff o).mp hc)), if_neg hb]

/-- A concrete one-page input document: black fill color, a line width op,
a black stroke color, and a non-black fill color. -/
def exDoc1 : PdfFile :=
  [[⟨[.num 0, .num 0, .num 0], "rg"⟩, ⟨[.num 2], "w"⟩,
    ⟨[.num 0, .num 0, .num 0], "RG"⟩, ⟨[.num 1, .num 0, .num 0], "rg"⟩]]

/-- A concrete folder holding `exDoc1` as `in.pdf`. -/
def exFolder1 : FS := [("in.pdf", exDoc1)]

/-- Witness for C1: the theorem applied to a concrete folder and document. -/
theorem colorize_pdf_replaces_black_color_ops_witness :
    fsRead exFolder1 "in.pdf" = some exDoc1 ∧
    ∃ doc' : PdfFile,
      colorize_pdf exFolder1 "in.pdf" "out.pdf" ((1 : ℚ)/2, (1 : ℚ)/4, 1) =
        .ok (fsWrite exFolder1 "out.pdf" doc') ∧
      ∀ i : ℕ, doc'.get? i = (exDoc1.get? i).map fun page =>
        page.map fun o =>
          if (o.op = "rg" ∨ o.op = "RG") ∧ o.operands = [.num 0, .num 0, .num 0] then
            { o with operands := [.num ((1 : ℚ)/2), .num ((1 : ℚ)/4), .num 1] }
          else o :=
  ⟨rfl, colorize_pdf_replaces_black_color_ops exFolder1 "in.pdf" "out.pdf"
    ((1 : ℚ)/2, (1 : ℚ)/4, 1) exDoc1 rfl⟩

/-- C4: for a layer whose configured color is not `#000000`, `colorize_layer`
substitutes the default black in the intermediate PDF with the RGB value
decoded from the hex color — or, when the page is monochrome, with the gray
triple whose three components all equal the average of those RGB
components — and appends the colorized file name to the file list. -/
theorem colorize_layer_substitutes_decoded_color
    (basename suffix colorS : String) (monochrome : Bool)
    (filelist : List String) (temp : FS) (rgb : Color) (alpha : ℚ) (doc : PdfFile)
    (hcol : colorS ≠ "#000000")
    (hhex : hex_to_rgb colorS = some (rgb, alpha))
    (hread : fsRead temp (basename ++ "-" ++ suffix ++ ".pdf") = some doc) :
    colorize_layer basename suffix colorS monochrome filelist temp =
      .ok (filelist ++ [basename ++ "-" ++ suffix ++ "-colored.pdf"],
           fsWrite temp (basename ++ "-" ++ suffix ++ "-colored.pdf")
             (doc.map (colorizeOps
               (if monochrome then
                  ((rgb.1 + rgb.2.1 + rgb.2.2) / 3, (rgb.1 + rgb.2.1 + rgb.2.2) / 3,
                   (rgb.1 + rgb.2.1 + rgb.2.2) / 3)
                else rgb)))) := by
  unfold colorize_layer
  rw [if_pos hcol, hhex]
  unfold colorize_pdf
  rw [hread]
  cases monochrome <;> simp [to_gray]

/-- A concrete one-page layer PDF used by the C4 witness. -/
def exDoc4 : PdfFile :=
  [[⟨[.num 0, .num 0, .num 0], "rg"⟩, ⟨[.num 3], "w"⟩]]

/-- Witness for C4: a red layer on a monochrome page turns into the gray
whose components are the average 1/3. -/
theorem colorize_layer_substitutes_decoded_color_witness :
    ("#FF0000" ≠ "#000000") ∧
    hex_to_rgb "#FF0000" = some ((1, 0, 0), 1) ∧
    fsRead [("pcb-F_Cu.pdf", exDoc4)] ("pcb" ++ "-" ++ "F_Cu" ++ ".pdf") = some exDoc4 ∧
    colorize_layer "pcb" "F_Cu" "#FF0000" true [] [("pcb-F_Cu.pdf", exDoc4)] =
      .ok ([] ++ ["pcb" ++ "-" ++ "F_Cu" ++ "-colored.pdf"],
           fsWrite [("pcb-F_Cu.pdf", exDoc4)] ("pcb" ++ "-" ++ "F_Cu" ++ "-colored.pdf")
             (exDoc4.map (colorizeOps
               (if true then
                  (((1 : ℚ) + 0 + 0) / 3, ((1 : ℚ) + 0 + 0) / 3, ((1 : ℚ) + 0 + 0) / 3)
                else (1, 0, 0))))) :=
  ⟨by decide,
   by simp +decide [hex_to_rgb, hexByte, hexDigit, lstripHash, String.toList],
   rfl,
   colorize_layer_substitutes_decoded_color "pcb" "F_Cu" "#FF0000" true [] _
     (1, 0, 0) 1 exDoc4 (by decide)
     (by simp +decide [hex_to_rgb, hexByte, hexDigit, lstripHash, String.toList])
     rfl⟩

/-- A successful `collectPages` run determines length and members. -/
theorem collectPages_spec (fs : FS) :
    ∀ (files : List String) (ps : List Page),
      collectPages fs files = .ok ps →
      ps.length = files.length ∧
      ∀ i : ℕ, ps.get? i = (files.get? i).bind fun f => (readFirstPage fs f).toOption := by
  intro files
  induction files with
  | nil =>
    intro ps h
    cases h
    exact ⟨rfl, fun i => rfl⟩
  | cons f rest ih =>
    intro ps h
    unfold collectPages at h
    cases hr : readFirstPage fs f with
    | error e => rw [hr] at h; cases h
    | ok pg =>
      rw [hr] at h
      cases hc : collectPages fs rest with
      | error e => rw [hc] at h; cases h
      | ok ps' =>
        rw [hc] at h
        cases h
        obtain ⟨hlen, hget⟩ := ih ps' hc
        refine ⟨by simp [hlen, compressContentStreams], fun i => ?_⟩
        cases i with
        | zero => simp [compressContentStreams, hr, Except.toOption]
        | succ j => simpa using hget j

/-- A successful `collectPages` run drives `mergeCollect` to fold the pages
onto the accumulator. -/
theorem mergeCollect_of_collectPages (fs : FS) :
    ∀ (files : List String) (ps : List Page) (m : Page),
      collectPages fs files = .ok ps →
      mergeCollect fs files (some m) = .ok (some (ps.foldl mergePage m)) := by
  intro files
  induction files with
  | nil =>
    intro ps m h
    cases h
    rfl
  | cons f rest ih =>
    intro ps m h
    unfold collectPages at h
    cases hr : readFirstPage fs f with
    | error e => rw [hr] at h; cases h
    | ok pg =>
      rw [hr] at h
      cases hc : collectPages fs rest with
      | error e => rw [hc] at h; cases h
      | ok ps' =>
        rw [hc] at h
        cases h
        unfold mergeCollect
        rw [hr]
        simpa [compressContentStreams] using ih ps' (mergePage m pg) hc

/-- `merge_pdf` on files whose first pages were collected as `p0 :: rest`
writes the single folded page. -/
theorem merge_pdf_fold (fs outA : FS) (nameA : String) (files : List String)
    (p0 : Page) (rest : List Page)
    (h : collectPages fs files = .ok (p0 :: rest)) :
    merge_pdf fs files outA nameA = .ok (fsWrite outA nameA [rest.foldl mergePage p0]) := by
  cases files with
  | nil => cases h
  | cons f frest =>
    unfold collectPages at h
    cases hr : readFirstPage fs f with
    | error e => rw [hr] at h; cases h
    | ok pg =>
      rw [hr] at h
      cases hc : collectPages fs frest with
      | error e => rw [hc] at h; cases h
      | ok qs =>
        rw [hc] at h
        cases h
        have hm : mergeCollect fs (f :: frest) none =
            .ok (some (rest.foldl mergePage (compressContentStreams pg))) := by
          unfold mergeCollect
          rw [hr]
          exact mergeCollect_of_collectPages fs frest rest (compressContentStreams pg) hc
        unfold merge_pdf
        rw [hm]

/-- C3: `merge_pdf` writes a document holding exactly one page, the first
page of every input file merged in list order onto the first file's page;
`create_pdf_from_pages` writes a document with one page per input file, the
first page of each, in list order. -/
theorem merge_and_stack_write_expected_pages
    (fs : FS) (files : List String) (outA outB : FS) (nameA nameB : String)
    (ps : List Page) (h : collectPages fs files = .ok ps) :
    ps.length = files.length ∧
    (∀ i : ℕ, ps.get? i = (files.get? i).bind fun f => (readFirstPage fs f).toOption) ∧
    create_pdf_from_pages fs files outB nameB = .ok (fsWrite outB nameB ps) ∧
    ∀ p0 rest, ps = p0 :: rest →
      merge_pdf fs files outA nameA = .ok (fsWrite outA nameA [rest.foldl mergePage p0]) := by
  obtain ⟨hlen, hget⟩ := collectPages_spec fs files ps h
  refine ⟨hlen, hget, by simp [create_pdf_from_pages, h], ?_⟩
  intro p0 rest hps
  subst hps
  exact merge_pdf_fold fs outA nameA files p0 rest h

/-- C9: `merge_pdf` is only well defined on a non-empty file list: the empty
list leaves `merged_page` unassigned and the call fails before producing any
output, while every non-empty readable list yields the merged single page. -/
theorem merge_pdf_empty_input_unguarded
    (fs outF : FS) (out : String) :
    merge_pdf fs [] outF out =
      .error "NameError: merged_page referenced before assignment" ∧
    ∀ (files : List String) (ps : List Page), files ≠ [] →
      collectPages fs files = .ok ps →
      ∃ pg : Page, merge_pdf fs files outF out = .ok (fsWrite outF out [pg]) := by
  refine ⟨rfl, ?_⟩
  intro files ps hne hc
  cases files with
  | nil => exact absurd rfl hne
  | cons f frest =>
    obtain ⟨hlen, -⟩ := collectPages_spec fs (f :: frest) ps hc
    cases ps with
    | nil => cases hlen
    | cons p0 prest =>
      exact ⟨prest.foldl mergePage p0, merge_pdf_fold fs outF out (f :: frest) p0 prest hc⟩

/-- A one-operation page used by concrete instances. -/
def exPgA : Page := [⟨[.num 0, .num 0, .num 0], "rg"⟩]

/-- Another one-operation page used by concrete instances. -/
def exPgB : Page := [⟨[.num 1], "w"⟩]

/-- A folder with two single-page documents. -/
def exFS3 : FS := [("a.pdf", [exPgA]), ("b.pdf", [exPgB])]

/-- Witness for C3: merging and stacking two concrete files. -/
theorem merge_and_stack_write_expected_pages_witness :
    collectPages exFS3 ["a.pdf", "b.pdf"] = .ok [exPgA, exPgB] ∧
    create_pdf_from_pages exFS3 ["a.pdf", "b.pdf"] [] "all.pdf" =
      .ok (fsWrite [] "all.pdf" [exPgA, exPgB]) ∧
    merge_pdf exFS3 ["a.pdf", "b.pdf"] [] "merged.pdf" =
      .ok (fsWrite [] "merged.pdf" [mergePage exPgA exPgB]) := by
  have h := merge_and_stack_write_expected_pages exFS3 ["a.pdf", "b.pdf"] [] []
    "merged.pdf" "all.pdf" [exPgA, exPgB] rfl
  exact ⟨rfl, h.2.2.1, h.2.2.2 exPgA [exPgB] rfl⟩

/-- Witness for C9: the empty call fails, the singleton call writes the page. -/
theorem merge_pdf_empty_input_unguarded_witness :
    merge_pdf exFS3 [] [] "out.pdf" =
      .error "NameError: merged_page referenced before assignment" ∧
    ∃ pg : Page, merge_pdf exFS3 ["a.pdf"] [] "out.pdf" = .ok (fsWrite [] "out.pdf" [pg]) := by
  have h := merge_pdf_empty_input_unguarded exFS3 [] "out.pdf"
  exact ⟨h.1, h.2 ["a.pdf"] [exPgA] (by simp) rfl⟩

/-- `drill_marks_map` succeeds exactly on the three legal names. -/
theorem drill_marks_map_isSome_iff (s : String) :
    (drill_marks_map s).isSome ↔ (s = "none" ∨ s = "small" ∨ s = "full") := by
  unfold drill_marks_map
  split_ifs <;> simp_all

/-- `checkPagesLayers` succeeds exactly when every page has a `layers` list. -/
theorem checkPagesLayers_ok_iff :
    ∀ pages : List RawPage,
      checkPagesLayers pages = .ok () ↔ ∀ p ∈ pages, p.layers ≠ none := by
  intro pages
  induction pages with
  | nil => simp [checkPagesLayers]
  | cons p rest ih =>
    cases hp : p.layers with
    | none => simp [checkPagesLayers, hp]
    | some ls =>
      simp only [checkPagesLayers, hp, List.mem_cons]
      constructor
      · intro h q hq
        rcases hq with hq | hq
        · subst hq; simp [hp]
        · exact (ih.mp h) q hq
      · intro h
        exact ih.mpr fun q hq => h q (Or.inr hq)

/-- C5: validation of the `pcb_print` configuration raises exactly when the
`pages` list is missing, a page's `layers` list is missing, the color theme
cannot be loaded, or `drill_marks` is not one of `none`/`small`/`full`; on
success `drill_marks` is mapped to 0, 1 or 2 respectively. -/
theorem pcb_print_config_error_conditions
    (themes : String → Option ColorTheme) (raw : RawPcbPrint) :
    ((∃ r, pcb_print_config themes raw = .ok r) ↔
      (raw.pages ≠ none ∧
       (∀ pages, raw.pages = some pages → ∀ p ∈ pages, p.layers ≠ none) ∧
       themes raw.color_theme ≠ none ∧
       (raw.drill_marks = "none" ∨ raw.drill_marks = "small" ∨ raw.drill_marks = "full"))) ∧
    ∀ r, pcb_print_config themes raw = .ok r →
      r.drill_marks = (if raw.drill_marks = "none" then 0
                       else if raw.drill_marks = "small" then 1 else 2) := by
  constructor
  · constructor
    · rintro ⟨r, h⟩
      unfold pcb_print_config at h
      split at h
      next => cases h
      next dm hd =>
      split at h
      next => cases h
      next pages hp =>
      split at h
      next e hc => cases h
      next u hc =>
      split at h
      next ht => cases h
      next theme ht =>
      refine ⟨by simp [hp], ?_, by simp [ht],
        (drill_marks_map_isSome_iff _).mp (by simp [hd])⟩
      intro pages' hpages' p hmem
      rw [hp] at hpages'
      cases hpages'
      cases u
      exact (checkPagesLayers_ok_iff pages).mp hc p hmem
    · rintro ⟨hp, hl, ht, hd⟩
      obtain ⟨pages, hpages⟩ := Option.ne_none_iff_exists'.mp hp
      obtain ⟨theme, htheme⟩ := Option.ne_none_iff_exists'.mp ht
      obtain ⟨dm, hdmv⟩ :=
        Option.isSome_iff_exists.mp ((drill_marks_map_isSome_iff raw.drill_marks).mpr hd)
      have hcheck : checkPagesLayers pages = .ok () :=
        (checkPagesLayers_ok_iff pages).mpr (hl pages hpages)
      refine ⟨{ pages := pages.map fun p => (p.layers.getD []).map (resolveLayerColor theme),
                drill_marks := dm, pcb_frame := theme.pcb_frame }, ?_⟩
      unfold pcb_print_config
      rw [hdmv, hpages]
      dsimp only
      rw [hcheck]
      dsimp only
      rw [htheme]
  · intro r h
    unfold pcb_print_config at h
    split at h
    next => cases h
    next dm hd =>
    split at h
    next => cases h
    next pages hp =>
    split at h
    next e hc => cases h
    next u hc =>
    split at h
    next ht => cases h
    next theme ht =>
    cases h
    unfold drill_marks_map at hd
    split_ifs at hd <;> simp_all

/-- A concrete color theme for the C5 witness. -/
def exTheme5 : ColorTheme := { layer_id2color := [(3, "#112233")], pcb_frame := "#4D4D4D" }

/-- A concrete theme loader knowing only the `user` theme. -/
def exThemes5 : String → Option ColorTheme :=
  fun s => if s = "user" then some exTheme5 else none

/-- A concrete valid raw configuration. -/
def exRaw5 : RawPcbPrint :=
  { pages := some [⟨some [⟨3, "F_Cu", ""⟩]⟩], color_theme := "user", drill_marks := "small" }

/-- Witness for C5: the concrete configuration validates and `small` maps
to 1. -/
theorem pcb_print_config_error_conditions_witness :
    (∃ r, pcb_print_config exThemes5 exRaw5 = .ok r) ∧
    ∀ r, pcb_print_config exThemes5 exRaw5 = .ok r → r.drill_marks = 1 := by
  have h := pcb_print_config_error_conditions exThemes5 exRaw5
  constructor
  · refine h.1.mpr ⟨by simp [exRaw5], ?_, by simp [exThemes5, exRaw5], by simp [exRaw5]⟩
    intro pages hp p hm
    simp only [exRaw5, Option.some_inj] at hp
    subst hp
    simp only [List.mem_singleton] at hm
    subst hm
    simp
  · intro r hr
    simpa [exRaw5] using h.2 r hr

/-- The stage events the spec prescribes for one page: plot every layer,
optionally plot the frame, colorize every layer, optionally colorize the
frame, merge into the per-page assembly PDF. -/
def pageStageEvents (sheetRef : Bool) (themeFrame basename : String) (n : ℕ)
    (p : PageCfg) : List Event :=
  p.layers.map (fun la => Event.plotLayer n la.suffix)
  ++ (if sheetRef then [Event.plotFrame n] else [])
  ++ p.layers.map (fun la => Event.colorizeStep n la.suffix (decide (la.color ≠ "#000000")))
  ++ (if sheetRef then
        [Event.colorizeStep n "frame" (decide (frameColor themeFrame p ≠ "#000000"))]
      else [])
  ++ [Event.mergeLayers n (assemblyFile basename n)]

/-- The events of the plotting loop do not depend on the directory state. -/
theorem plotPageLayers_events (plot : PlotEngine) (basename : String) (n : ℕ) :
    ∀ (layers : List LayerCfg) (temp : FS),
      (plotPageLayers plot basename n layers temp).2 =
        layers.map fun la => Event.plotLayer n la.suffix := by
  intro layers
  induction layers with
  | nil => intro temp; rfl
  | cons la rest ih =>
    intro temp
    unfold plotPageLayers
    simp only []
    rw [List.map_cons]
    have := ih (fsWrite temp (basename ++ "-" ++ la.suffix ++ ".pdf") (plot n la.suffix))
    cases hrec : plotPageLayers plot basename n rest
        (fsWrite temp (basename ++ "-" ++ la.suffix ++ ".pdf") (plot n la.suffix)) with
    | mk t evs =>
      rw [hrec] at this
      simpa using this

/-- The colorize loop emits one `colorizeStep` per layer, in order. -/
theorem colorizePageLayers_events (basename : String) (n : ℕ) (mono : Bool) :
    ∀ (layers : List LayerCfg) (fl : List String) (temp : FS)
      (fl' : List String) (t' : FS) (evs : List Event),
      colorizePageLayers basename n layers mono fl temp = .ok (fl', t', evs) →
      evs = layers.map fun la =>
        Event.colorizeStep n la.suffix (decide (la.color ≠ "#000000")) := by
  intro layers
  induction layers with
  | nil =>
    intro fl temp fl' t' evs h
    cases h
    rfl
  | cons la rest ih =>
    intro fl temp fl' t' evs h
    unfold colorizePageLayers at h
    split at h
    next => cases h
    next fl1 t1 hcl =>
    split at h
    next => cases h
    next fl2 t2 evs2 hrec =>
    cases h
    rw [List.map_cons]
    exact congrArg _ (ih _ _ _ _ _ hrec)

/-- One page of the loop emits exactly the prescribed stage events and names
its assembly file after the page number. -/
theorem processPage_events (plot : PlotEngine) (basename : String)
    (sheetRef : Bool) (themeFrame : String) (n : ℕ) (p : PageCfg) (temp : FS)
    (t : FS) (a : String) (evs : List Event)
    (h : processPage plot basename sheetRef themeFrame n p temp = .ok (t, a, evs)) :
    a = assemblyFile basename n ∧
    evs = pageStageEvents sheetRef themeFrame basename n p := by
  unfold processPage at h
  dsimp only at h
  split at h
  next => cases h
  next fl1 tempC evColor hcol =>
  split at h
  next => cases h
  next fl3 tempD evFr hframe =>
  split at h
  next => cases h
  next tempE hmerge =>
  cases h
  refine ⟨rfl, ?_⟩
  unfold pageStageEvents
  rw [plotPageLayers_events plot basename n p.layers temp,
    colorizePageLayers_events basename n p.monochrome p.layers [] _ fl1 tempC evColor hcol]
  have hfr2 : (plotFrameStep plot basename sheetRef n
      (plotPageLayers plot basename n p.layers temp).1).2 =
      (if sheetRef then [Event.plotFrame n] else []) := by
    unfold plotFrameStep
    by_cases hs : sheetRef <;> simp [hs]
  have hfrev : evFr = (if sheetRef then
      [Event.colorizeStep n "frame" (decide (frameColor themeFrame p ≠ "#000000"))]
    else []) := by
    unfold colorizeFrameStep at hframe
    by_cases hs : sheetRef
    · rw [if_pos hs] at hframe
      rw [if_pos hs]
      split at hframe
      next => cases hframe
      next fl2 t2 hcl2 => cases hframe; rfl
    · rw [if_neg hs] at hframe
      rw [if_neg hs]
      cases hframe
      rfl
  rw [hfr2, hfrev]

/-- The page loop emits the per-page stage events in page order and collects
the per-page assembly files in order. -/
theorem processPages_events (plot : PlotEngine) (basename : String)
    (sheetRef : Bool) (themeFrame : String) :
    ∀ (ps : List PageCfg) (n : ℕ) (temp : FS) (t : FS)
      (files : List String) (evs : List Event),
      processPages plot basename sheetRef themeFrame n ps temp = .ok (t, files, evs) →
      files = (List.enumFrom n ps).map (fun q => assemblyFile basename q.1) ∧
      evs = ((List.enumFrom n ps).map
        (fun q => pageStageEvents sheetRef themeFrame basename q.1 q.2)).join := by
  intro ps
  induction ps with
  | nil =>
    intro n temp t files evs h
    cases h
    exact ⟨rfl, rfl⟩
  | cons p rest ih =>
    intro n temp t files evs h
    unfold processPages at h
    split at h
    next => cases h
    next temp1 a evs1 hpage =>
    split at h
    next => cases h
    next temp2 files2 evs2 hrest =>
    cases h
    obtain ⟨ha, hevs1⟩ := processPage_events plot basename sheetRef themeFrame n p temp
      _ _ _ hpage
    obtain ⟨hfiles, hevs2⟩ := ih (n + 1) temp1 _ _ _ hrest
    subst ha hevs1 hfiles hevs2
    simp [List.enumFrom]

/-- C2: a successful `generate_output` run performs, for every configured
page in order, the stages plot-layers, optionally plot-frame, colorize,
optionally colorize-frame, merge-into-page-PDF, and finally stacks all
per-page PDFs into the output document. -/
theorem generate_output_stage_order (plot : PlotEngine) (cfg : PcbPrintCfg)
    (outDir : FS) (output : String) (r : GenResult)
    (h : generate_output plot cfg outDir output = .ok r) :
    r.events =
      (cfg.pages.enum.map (fun q =>
        pageStageEvents cfg.plot_sheet_reference cfg.theme_pcb_frame
          cfg.pcb_basename q.1 q.2)).join
      ++ [Event.stackPages
            (cfg.pages.enum.map fun q => assemblyFile cfg.pcb_basename q.1) output,
          Event.removeTempDir] := by
  unfold generate_output at h
  split at h
  next => cases h
  next temp1 pageFiles evs hpp =>
  split at h
  next => cases h
  next outDir1 hcreate =>
  cases h
  obtain ⟨hfiles, hevs⟩ := processPages_events plot cfg.pcb_basename
    cfg.plot_sheet_reference cfg.theme_pcb_frame cfg.pages 0 [] temp1 pageFiles evs hpp
  subst hfiles hevs
  rfl

/-- C8: after a successful `generate_output` run the temporary directory is
removed, and the only effect on the output directory is the final PDF. -/
theorem generate_output_cleans_temp_dir (plot : PlotEngine) (cfg : PcbPrintCfg)
    (outDir : FS) (output : String) (r : GenResult)
    (h : generate_output plot cfg outDir output = .ok r) :
    r.temp = none ∧
    ∃ pages : PdfFile, r.outDir = fsWrite outDir output pages ∧
      fsRead r.outDir output = some pages := by
  unfold generate_output at h
  split at h
  next => cases h
  next temp1 pageFiles evs hpp =>
  split at h
  next => cases h
  next outDir1 hcreate =>
  cases h
  refine ⟨rfl, ?_⟩
  unfold create_pdf_from_pages at hcreate
  split at hcreate
  next => cases hcreate
  next ps hps =>
  cases hcreate
  exact ⟨ps, rfl, by simp [fsRead, fsWrite]⟩

/-- The plotting engine used by concrete pipeline runs: every plot file is
the one-page document `[exPgA]`. -/
def exPlot : PlotEngine := fun _ _ => [exPgA]

/-- A one-page, one-layer configuration with all colors left black. -/
def exCfg : PcbPrintCfg :=
  { pcb_basename := "pcb", plot_sheet_reference := true,
    theme_pcb_frame := "#000000",
    pages := [{ mirror := false, monochrome := false, scaling := 1,
                title := "", sheet := "Assembly", sheet_reference_color := "",
                line_width := 1/10, negative_plot := false,
                exclude_pads_from_silkscreen := false, tent_vias := true,
                layers := [{ suffix := "F_Cu", color := "#000000",
                             plot_footprint_refs := true,
                             plot_footprint_values := true,
                             force_plot_invisible_refs_vals := false }] }] }

/-- Witness for C2: the concrete all-black run succeeds and its trace has the
prescribed stage order. -/
theorem generate_output_stage_order_witness :
    ∃ r : GenResult, generate_output exPlot exCfg [] "out.pdf" = .ok r ∧
      r.events =
        (exCfg.pages.enum.map (fun q =>
          pageStageEvents exCfg.plot_sheet_reference exCfg.theme_pcb_frame
            exCfg.pcb_basename q.1 q.2)).join
        ++ [Event.stackPages
              (exCfg.pages.enum.map fun q => assemblyFile exCfg.pcb_basename q.1) "out.pdf",
            Event.removeTempDir] := by
  have hok : (generate_output exPlot exCfg [] "out.pdf").isOk = true := by decide
  cases hgen : generate_output exPlot exCfg [] "out.pdf" with
  | error e => rw [hgen] at hok; cases hok
  | ok r =>
    exact ⟨r, rfl, generate_output_stage_order exPlot exCfg [] "out.pdf" r hgen⟩

/-- Witness for C8: the concrete run ends with the temporary directory gone
and the output directory holding only the final PDF. -/
theorem generate_output_cleans_temp_dir_witness :
    ∃ r : GenResult, generate_output exPlot exCfg [] "out.pdf" = .ok r ∧
      r.temp = none ∧
      ∃ pages : PdfFile, r.outDir = fsWrite [] "out.pdf" pages ∧
        fsRead r.outDir "out.pdf" = some pages := by
  have hok : (generate_output exPlot exCfg [] "out.pdf").isOk = true := by decide
  cases hgen : generate_output exPlot exCfg [] "out.pdf" with
  | error e => rw [hgen] at hok; cases hok
  | ok r =>
    exact ⟨r, rfl, generate_output_cleans_temp_dir exPlot exCfg [] "out.pdf" r hgen⟩

/-- Distributing a conditional append: appending inside an `if` equals
appending the conditional segment. -/
theorem if_append {α : Type} (c : Prop) [Decidable c] (l x : List α) :
    (if c then l ++ x else l) = l ++ (if c then x else []) := by
  split_ifs <;> simp

/-- C6: with the PCB3D file present, `run` writes the scene JSON and invokes
the renderer with a command line whose import flags appear exactly when the
corresponding option differs from its default, followed by `--format` with
one type per output, `--output` with one filename per output, `--scene` with
the JSON file, and the PCB3D file last. -/
theorem blender_run_command_line (env : BlenderEnv)
    (expand : String → String → String) (cfg : BlenderCfg)
    (hex : env.pcb3d_file_exists = true) :
    blender_run env expand cfg =
      ((if env.pcb3d_done then [] else [BEvent.ranOutput cfg.pcb3d])
        ++ [.wroteScene (mkScene cfg), .ranCommand (mkCommand env expand cfg)],
       .ok (mkCommand env expand cfg)) ∧
    mkCommand env expand cfg =
      [env.blender, "-b", "--factory-startup", "-P", env.script, "--"]
      ++ (if cfg.pcb_import.components ≠ defaultPcbImport.components then
            ["--no_components"] else [])
      ++ (if cfg.pcb_import.cut_boards ≠ defaultPcbImport.cut_boards then
            ["--dont_cut_boards"] else [])
      ++ (if cfg.pcb_import.texture_dpi ≠ defaultPcbImport.texture_dpi then
            ["--texture_dpi", toString cfg.pcb_import.texture_dpi] else [])
      ++ (if cfg.pcb_import.center ≠ defaultPcbImport.center then
            ["--dont_center"] else [])
      ++ (if cfg.pcb_import.enhance_materials ≠ defaultPcbImport.enhance_materials then
            ["--dont_enhance_materials"] else [])
      ++ (if cfg.pcb_import.merge_materials ≠ defaultPcbImport.merge_materials then
            ["--dont_merge_materials"] else [])
      ++ (if cfg.pcb_import.solder_joints ≠ defaultPcbImport.solder_joints then
            ["--solder_joints", cfg.pcb_import.solder_joints] else [])
      ++ (if cfg.pcb_import.stack_boards ≠ defaultPcbImport.stack_boards then
            ["--dont_stack_boards"] else [])
      ++ ["--format"] ++ cfg.outputs.map (fun o => o.type)
      ++ ["--output"] ++ cfg.outputs.map (get_output_filename expand)
      ++ ["--scene", env.scene_json]
      ++ [env.pcb3d_file] := by
  constructor
  · unfold blender_run
    rw [if_neg (by simp [hex])]
    by_cases hd : env.pcb3d_done <;> simp [hd]
  · unfold mkCommand
    dsimp only [defaultPcbImport]
    simp only [if_append, ne_eq]

/-- C7: before invoking the renderer, `run` first runs the output that
generates the PCB3D file when it has not run yet, and when the file still
does not exist it fails with `Missing <file>` and no renderer subprocess is
invoked. -/
theorem blender_run_missing_pcb3d (env : BlenderEnv)
    (expand : String → String → String) (cfg : BlenderCfg) :
    (env.pcb3d_done = false →
      (blender_run env expand cfg).1.head? = some (.ranOutput cfg.pcb3d)) ∧
    (env.pcb3d_file_exists = false →
      (blender_run env expand cfg).2 = .error ("Missing " ++ env.pcb3d_file) ∧
      ∀ cmd : List String, BEvent.ranCommand cmd ∉ (blender_run env expand cfg).1) := by
  constructor
  · intro hd
    unfold blender_run
    by_cases hex : env.pcb3d_file_exists <;> simp [hd, hex]
  · intro hex
    unfold blender_run
    rw [if_pos (by simp [hex])]
    refine ⟨rfl, ?_⟩
    intro cmd hmem
    by_cases hd : env.pcb3d_done <;> simp [hd] at hmem

/-- A concrete environment with the PCB3D file present. -/
def exEnv : BlenderEnv :=
  { blender := "blender", pcb3d_file := "board.pcb3d", pcb3d_done := false,
    pcb3d_file_exists := true, scene_json := "scene.json",
    script := "blender_export.py" }

/-- A concrete filename expansion: pattern plus extension. -/
def exExpand : String → String → String := fun ext pat => pat ++ "." ++ ext

/-- A concrete Blender configuration with one non-default import option. -/
def exBCfg : BlenderCfg :=
  { pcb3d := "pcb3d_out",
    pcb_import := { defaultPcbImport with components := false },
    outputs := [{ type := "render", output := "img" }],
    light := [⟨"kibot_light", 1, 2, 3⟩],
    camera := none,
    render_options := { samples := 10, resolution_x := 1280, resolution_y := 720,
                        transparent_background := false,
                        background1 := "#66667F", background2 := "#CCCCE5" },
    rotate_x := 30, rotate_y := 0, rotate_z := 0, view := "z" }

/-- Witness for C6: the concrete run produces the expected command line. -/
theorem blender_run_command_line_witness :
    blender_run exEnv exExpand exBCfg =
      ([.ranOutput "pcb3d_out", .wroteScene (mkScene exBCfg),
        .ranCommand (mkCommand exEnv exExpand exBCfg)],
       .ok (mkCommand exEnv exExpand exBCfg)) ∧
    mkCommand exEnv exExpand exBCfg =
      ["blender", "-b", "--factory-startup", "-P", "blender_export.py", "--",
       "--no_components", "--format", "render", "--output", "img.png",
       "--scene", "scene.json", "board.pcb3d"] := by
  have h := blender_run_command_line exEnv exExpand exBCfg rfl
  refine ⟨?_, ?_⟩
  · rw [h.1]; rfl
  · rw [h.2]; rfl

/-- The C7 environment: the source output has not run and the file is
missing even after running it. -/
def exEnv7 : BlenderEnv :=
  { blender := "blender", pcb3d_file := "board.pcb3d", pcb3d_done := false,
    pcb3d_file_exists := false, scene_json := "scene.json",
    script := "blender_export.py" }

/-- Witness for C7: the source output runs first, then the run aborts with
`Missing board.pcb3d` and never invokes the renderer. -/
theorem blender_run_missing_pcb3d_witness :
    (blender_run exEnv7 exExpand exBCfg).1.head? = some (.ranOutput "pcb3d_out") ∧
    (blender_run exEnv7 exExpand exBCfg).2 = .error ("Missing " ++ "board.pcb3d") ∧
    ∀ cmd : List String,
      BEvent.ranCommand cmd ∉ (blender_run exEnv7 exExpand exBCfg).1 := by
  have h := blender_run_missing_pcb3d exEnv7 exExpand exBCfg
  exact ⟨h.1 rfl, (h.2 rfl).1, (h.2 rfl).2⟩

/-- C10 (failing input): two lights configured with the same name `spot`
keep identical names after `config`, because the `light_names` set is never
populated; the collision-renaming branch is dead code. -/
theorem config_lights_keeps_duplicate_names :
    ((config_lights true 1 (some [⟨"spot", 0, 0, 0⟩, ⟨"spot", 0, 0, 0⟩])).map
      (fun l => l.name) = ["spot", "spot"]) ∧
    ¬ ((config_lights true 1 (some [⟨"spot", 0, 0, 0⟩, ⟨"spot", 0, 0, 0⟩])).map
      (fun l => l.name)).Nodup ∧
    ((config_lights true 1 (some [⟨"", 0, 0, 0⟩])).map (fun l => l.name) =
      ["kibot_light"]) := by
  refine ⟨rfl, ?_, rfl⟩
  decide

end KiBot
